import Mathlib

/-!
Verification development for the Z3_WEBVISU repository.

The development shallowly embeds the two core components of the repository:

* `src/z3/z3_cache.py` — the proof cache (`Z3Cache`): canonical identity
  hashing (`_compute_hash`, SHA-256 over a deterministic JSON serialization),
  the sqlite-backed store (`get_cache` / `set_cache`, modelled as a list of
  rows keyed by the primary key `hash_key`, with the sqlite connection
  modelled as an environment that can fail), and

* `src/mcp_backend_z3_current.py` — the MCP backend tools `prove_logic`
  and `check_satisfiability`: mode selection, alias/declaration
  registration, token discovery, regex-based arity inference, evaluation
  of statement strings over the registered environment, and the mapping
  from solver outcomes to the values the tools return.

Python strings are Lean `String`; `sorted` on strings is `List.insertionSort`
with the code-point order (Python compares strings by code points, exactly
the `LinearOrder String` order); machine-level 32-bit words in SHA-256 are
`Nat` reduced modulo `2 ^ 32`. The external Z3 solver decision procedure is
a parameter (`check`), and Python `exec` of raw legacy-mode scripts is an
environment parameter (`LegacyOutcome`), since arbitrary Python cannot be
embedded; everything textual (hashing, serialization, scanning, inference,
expression evaluation over the predicate fragment) is embedded directly
from the source.
-/

namespace Z3Visu

/-! ## SHA-256 (hashlib.sha256), over byte lists, words as Nat mod 2^32 -/

/-- Two to the thirty-two, the word modulus of SHA-256. -/
def w32 : Nat := 4294967296

/-- Bitwise complement of a 32-bit word. -/
def not32 (x : Nat) : Nat := x ^^^ (w32 - 1)

/-- Right rotation of a 32-bit word by `n` bits. -/
def rotr32 (n x : Nat) : Nat := ((x >>> n) ||| (x <<< (32 - n))) % w32

/-- The 64 SHA-256 round constants. -/
def shaK : List Nat :=
  [1116352408, 1899447441, 3049323471, 3921009573,
   961987163, 1508970993, 2453635748, 2870763221,
   3624381080, 310598401, 607225278, 1426881987,
   1925078388, 2162078206, 2614888103, 3248222580,
   3835390401, 4022224774, 264347078, 604807628,
   770255983, 1249150122, 1555081692, 1996064986,
   2554220882, 2821834349, 2952996808, 3210313671,
   3336571891, 3584528711, 113926993, 338241895,
   666307205, 773529912, 1294757372, 1396182291,
   1695183700, 1986661051, 2177026350, 2456956037,
   2730485921, 2820302411, 3259730800, 3345764771,
   3516065817, 3600352804, 4094571909, 275423344,
   430227734, 506948616, 659060556, 883997877,
   958139571, 1322822218, 1537002063, 1747873779,
   1955562222, 2024104815, 2227730452, 2361852424,
   2428436474, 2756734187, 3204031479, 3329325298]

/-- The initial SHA-256 hash value. -/
def shaH0 : List Nat :=
  [1779033703, 3144134277, 1013904242, 2773480762,
   1359893119, 2600822924, 528734635, 1541459225]

/-- Big-endian 8-byte encoding of a natural number (the length field of the padding). -/
def be64 (n : Nat) : List Nat :=
  (List.range 8).map fun i => (n >>> (8 * (7 - i))) % 256

/-- SHA-256 message padding: append `0x80`, zeros to 56 mod 64, then the bit length. -/
def shaPad (msg : List Nat) : List Nat :=
  let z := (119 - (msg.length % 64)) % 64
  msg ++ [0x80] ++ List.replicate z 0 ++ be64 (8 * msg.length)

/-- Split a byte list into 64-byte blocks. -/
def toBlocks (l : List Nat) : List (List Nat) :=
  if h : l = [] then []
  else l.take 64 :: toBlocks (l.drop 64)
termination_by l.length
decreasing_by
  have hl : 0 < l.length := List.length_pos.mpr h
  simp [List.length_drop]
  omega

/-- Parse a 64-byte block into 16 big-endian 32-bit words. -/
def words16 (block : List Nat) : List Nat :=
  (List.range 16).map fun i =>
    (block.getD (4 * i) 0) * 16777216 + (block.getD (4 * i + 1) 0) * 65536 +
      (block.getD (4 * i + 2) 0) * 256 + block.getD (4 * i + 3) 0

/-- Message-schedule extension of the 16 words of a block to 64 words. -/
def extendW (w : List Nat) : List Nat :=
  if h : 64 ≤ w.length then w
  else
    let n := w.length
    let s0 := rotr32 7 (w.getD (n - 15) 0) ^^^ rotr32 18 (w.getD (n - 15) 0) ^^^
      ((w.getD (n - 15) 0) >>> 3)
    let s1 := rotr32 17 (w.getD (n - 2) 0) ^^^ rotr32 19 (w.getD (n - 2) 0) ^^^
      ((w.getD (n - 2) 0) >>> 10)
    extendW (w ++ [(w.getD (n - 16) 0 + s0 + w.getD (n - 7) 0 + s1) % w32])
termination_by 64 - w.length
decreasing_by
  simp [List.length_append]
  omega

/-- The eight-word working state of the SHA-256 compression function. -/
structure ShaState where
  a : Nat
  b : Nat
  c : Nat
  d : Nat
  e : Nat
  f : Nat
  g : Nat
  h : Nat
deriving DecidableEq

/-- One round of the SHA-256 compression function with round constant `k` and word `w`. -/
def shaRound (st : ShaState) (k w : Nat) : ShaState :=
  let s1 := rotr32 6 st.e ^^^ rotr32 11 st.e ^^^ rotr32 25 st.e
  let ch := (st.e &&& st.f) ^^^ (not32 st.e &&& st.g)
  let temp1 := (st.h + s1 + ch + k + w) % w32
  let s0 := rotr32 2 st.a ^^^ rotr32 13 st.a ^^^ rotr32 22 st.a
  let maj := (st.a &&& st.b) ^^^ (st.a &&& st.c) ^^^ (st.b &&& st.c)
  let temp2 := (s0 + maj) % w32
  ⟨(temp1 + temp2) % w32, st.a, st.b, st.c, (st.d + temp1) % w32, st.e, st.f, st.g⟩

/-- Compress one 64-byte block into the running hash value. -/
def shaCompress (hv : List Nat) (block : List Nat) : List Nat :=
  let w := extendW (words16 block)
  let st0 : ShaState := ⟨hv.getD 0 0, hv.getD 1 0, hv.getD 2 0, hv.getD 3 0,
    hv.getD 4 0, hv.getD 5 0, hv.getD 6 0, hv.getD 7 0⟩
  let stf := (List.range 64).foldl (fun st i => shaRound st (shaK.getD i 0) (w.getD i 0)) st0
  [(hv.getD 0 0 + stf.a) % w32, (hv.getD 1 0 + stf.b) % w32, (hv.getD 2 0 + stf.c) % w32,
   (hv.getD 3 0 + stf.d) % w32, (hv.getD 4 0 + stf.e) % w32, (hv.getD 5 0 + stf.f) % w32,
   (hv.getD 6 0 + stf.g) % w32, (hv.getD 7 0 + stf.h) % w32]

/-- SHA-256 of a byte list, as the list of eight 32-bit hash words. -/
def sha256Words (msg : List Nat) : List Nat :=
  (toBlocks (shaPad msg)).foldl shaCompress shaH0

/-- Lowercase hexadecimal digit. -/
def hexDigit (n : Nat) : Char :=
  if n < 10 then Char.ofNat (48 + n) else Char.ofNat (87 + n)

/-- Lowercase 8-digit hexadecimal rendering of a 32-bit word. -/
def hexWord (w : Nat) : List Char :=
  (List.range 8).map fun i => hexDigit ((w >>> (4 * (7 - i))) % 16)

/-- SHA-256 of a byte list as the usual 64-character lowercase hex digest
(the value of `hashlib.sha256(...).hexdigest()`). -/
def sha256Hex (msg : List Nat) : String :=
  ⟨(sha256Words msg).flatMap hexWord⟩

/-! ## UTF-8 encoding (str.encode("utf-8")) and the JSON serialization
produced by `json.dumps(data, sort_keys=True)` with default options
(separators `", "` and `": "`, `ensure_ascii=True`). -/

/-- UTF-8 encoding of one character, as a list of byte values. -/
def utf8Char (c : Char) : List Nat :=
  let n := c.toNat
  if n < 128 then [n]
  else if n < 2048 then [192 + n / 64, 128 + n % 64]
  else if n < 65536 then [224 + n / 4096, 128 + (n / 64) % 64, 128 + n % 64]
  else [240 + n / 262144, 128 + (n / 4096) % 64, 128 + (n / 64) % 64, 128 + n % 64]

/-- UTF-8 encoding of a string, as a list of byte values. -/
def utf8Str (s : String) : List Nat := s.toList.flatMap utf8Char

/-- Four lowercase hex digits, for the JSON `\uXXXX` escapes. -/
def hex4 (n : Nat) : List Char :=
  (List.range 4).map fun i => hexDigit ((n >>> (4 * (3 - i))) % 16)

/-- Escaping of one character inside a JSON string literal, exactly as
`json.dumps` with `ensure_ascii=True` renders it: the two-character escapes
for quote, backslash and the usual control characters, `\uXXXX` escapes for
the remaining control characters and for every character outside the
printable ASCII range, surrogate pairs beyond the basic plane. -/
def jsonEscapeChar (c : Char) : List Char :=
  if c = '"' then ['\\', '"']
  else if c = '\\' then ['\\', '\\']
  else if c = '\n' then ['\\', 'n']
  else if c = '\r' then ['\\', 'r']
  else if c = '\t' then ['\\', 't']
  else if c.toNat = 8 then ['\\', 'b']
  else if c.toNat = 12 then ['\\', 'f']
  else if c.toNat < 32 then '\\' :: 'u' :: hex4 c.toNat
  else if c.toNat < 127 then [c]
  else if c.toNat < 65536 then '\\' :: 'u' :: hex4 c.toNat
  else
    let v := c.toNat - 65536
    ('\\' :: 'u' :: hex4 (55296 + v / 1024)) ++ ('\\' :: 'u' :: hex4 (56320 + v % 1024))

/-- JSON string literal for a Lean string. -/
def jsonString (s : String) : String :=
  ⟨'"' :: s.toList.flatMap jsonEscapeChar ++ ['"']⟩

/-- JSON array of strings, with the default `", "` item separator. -/
def jsonStringList (l : List String) : String :=
  "[" ++ String.intercalate ", " (l.map jsonString) ++ "]"

/-- Serialization of the dictionary
`data = ("premises": norm_premises, "conclusion": conclusion)` by
`json.dumps(data, sort_keys=True)`: keys are emitted in sorted order, so
`"conclusion"` comes before `"premises"`. -/
def cacheJson (norm_premises : List String) (conclusion : String) : String :=
  "\x7b\"conclusion\": " ++ jsonString conclusion ++
    ", \"premises\": " ++ jsonStringList norm_premises ++ "\x7d"

/-! ## Z3Cache (src/z3/z3_cache.py) -/

namespace Z3Cache

/-- Declarations and aliases are Python dicts of strings; their entries are
irrelevant to the hash, which never reads them. -/
def StrDict := List (String × String)

/-- Embedding of `Z3Cache._compute_hash`: premises are sorted when the list
is non-empty (`sorted(premises) if premises else []`, with the code-point
order Python uses on strings), packed with the conclusion into the JSON
serialization with sorted keys, UTF-8 encoded and hashed with SHA-256. The
`declarations` and `aliases` parameters are accepted and ignored, exactly as
in the source. -/
def _compute_hash (premises : List String) (conclusion : String)
    (declarations : Option StrDict := none) (aliases : Option StrDict := none) : String :=
  let norm_premises := if premises.isEmpty then [] else premises.insertionSort (· ≤ ·)
  let json_str := cacheJson norm_premises conclusion
  sha256Hex (utf8Str json_str)

/-- One row of the sqlite table `z3_proof_cache`: the primary key
`hash_key`, the INTEGER column `result` (holding `int(result)`), and the
REAL column `timestamp` (an abstract clock tick here). -/
structure CacheRow where
  hash_key : String
  result : Nat
  timestamp : Nat
deriving DecidableEq

/-- The state of the sqlite table `z3_proof_cache`. -/
structure CacheDB where
  rows : List CacheRow
deriving DecidableEq

/-- The empty table, the state produced by `_init_db` on a fresh database. -/
def emptyDB : CacheDB := ⟨[]⟩

/-- Rows of the table carrying a given `hash_key` (the result set of
`SELECT ... WHERE hash_key = ?`). -/
def rowsFor (db : CacheDB) (h : String) : List CacheRow :=
  db.rows.filter fun r => r.hash_key = h

/-- Embedding of `Z3Cache.get_cache`. The sqlite connection is modelled by
`connFail`: `some msg` means the storage layer raised an exception with that
message, which the `except` branch swallows (after logging), falling through
to `return None`. On a healthy connection the first row matching the
computed `hash_key` is fetched and `bool(row[0])` is returned. -/
def get_cache (db : CacheDB) (connFail : Option String)
    (premises : List String) (conclusion : String)
    (declarations : Option StrDict := none) (aliases : Option StrDict := none) :
    Option Bool :=
  let hash_key := _compute_hash premises conclusion declarations aliases
  match connFail with
  | some _ => none
  | none =>
    match db.rows.find? (fun r => r.hash_key = hash_key) with
    | some row => some (decide (row.result ≠ 0))
    | none => none

/-- Embedding of `Z3Cache.set_cache`. `INSERT OR REPLACE` on the primary
key `hash_key` deletes any conflicting row and inserts the new one, storing
`int(result)` and the current time. A storage failure (`connFail = some msg`)
is caught, logged and swallowed, leaving the table unchanged; no exception
reaches the caller. -/
def set_cache (db : CacheDB) (connFail : Option String)
    (premises : List String) (conclusion : String)
    (declarations : Option StrDict := none) (aliases : Option StrDict := none)
    (result : Bool := false) (now : Nat := 0) : CacheDB :=
  let hash_key := _compute_hash premises conclusion declarations aliases
  match connFail with
  | some _ => db
  | none =>
    ⟨(db.rows.filter fun r => ¬ (r.hash_key = hash_key)) ++
      [⟨hash_key, if result then 1 else 0, now⟩]⟩

end Z3Cache

/-! ## The MCP backend (src/mcp_backend_z3_current.py)

The backend evaluates caller statements with the Python `eval` over a local
dictionary of Z3 objects. The embedding covers the predicate-logic fragment
those statements are written in (identifiers, predicate application, the
connectives Implies / And / Or / Not), with ASCII identifiers; the external
solver decision procedure is the parameter `check`, and legacy mode, which
`exec`-utes raw Python scripts, is summarized by a `LegacyOutcome`
environment value. -/

namespace Backend

/-- Characters of the regex class `[a-zA-Z0-9_]` (identifier continuation). -/
def isWordChar (c : Char) : Bool := c.isAlpha || c.isDigit || c = '_'

/-- Characters of the regex class `[a-zA-Z_]` (identifier start). -/
def isWordStart (c : Char) : Bool := c.isAlpha || c = '_'

/-- Characters of the regex class `\s`. -/
def isSpace (c : Char) : Bool :=
  c = ' ' || c = '\t' || c = '\n' || c = '\r' || c = '\x0b' || c = '\x0c'

/-- True when the string has a character that is not whitespace; this is the
truth value Python gives to `s.strip()`. -/
def hasNonSpace (s : String) : Bool := s.toList.any fun c => ¬ isSpace c

/-- Number of commas in a string, the value of `s.count(",")`. -/
def countCommas (s : String) : Nat := s.toList.count ','

/-- Prefix test on character lists. -/
def hasPrefixL : List Char → List Char → Bool
  | [], _ => true
  | _ :: _, [] => false
  | a :: as, b :: bs => a = b && hasPrefixL as bs

/-- Substring test, the Python `needle in hay`; first argument the haystack,
second the needle. -/
def containsSub : List Char → List Char → Bool
  | [], needle => hasPrefixL needle []
  | hay@(_ :: rest), needle => hasPrefixL needle hay || containsSub rest needle

/-- Single left-to-right pass of the identifier scan, carrying the reversed
characters of the token currently being read. -/
def scanAux : List Char → Option (List Char) → List String
  | [], none => []
  | [], some tok => [⟨tok.reverse⟩]
  | c :: rest, none =>
    if isWordStart c then scanAux rest (some [c]) else scanAux rest none
  | c :: rest, some tok =>
    if isWordChar c then scanAux rest (some (c :: tok))
    else
      (⟨tok.reverse⟩ : String) ::
        (if isWordStart c then scanAux rest (some [c]) else scanAux rest none)

/-- Embedding of `re.findall(r"[a-zA-Z_][a-zA-Z0-9_]*", text)`: scan left to
right, matching maximal identifier tokens. -/
def scanTokens (l : List Char) : List String := scanAux l none

/-- Remainder of the second list after removing the first as a prefix, when
it is one. -/
def dropPfx : List Char → List Char → Option (List Char)
  | [], s => some s
  | _ :: _, [] => none
  | k :: ks, c :: cs => if k = c then dropPfx ks cs else none

/-- The capture of the non-greedy group in `\((.*?)\)`: the characters up to
the first closing parenthesis; the match fails when no closing parenthesis
follows, or a newline comes first (the regex dot does not cross lines). -/
def captureArgs : List Char → Option (List Char)
  | [] => none
  | c :: rest =>
    if c = ')' then some []
    else if c = '\n' then none
    else
      match captureArgs rest with
      | some g => some (c :: g)
      | none => none

/-- Embedding of `re.search(rf"\b(key)\s*\((.*?)\)", text)` for an
identifier key, returning the captured argument text of the leftmost match:
at each position, the word-boundary test against the previous character, the
literal key, optional whitespace, an opening parenthesis and the non-greedy
capture. -/
def searchCallArgs (key : List Char) : Option Char → List Char → Option String
  | _, [] => none
  | prev, c :: rest =>
    let boundaryOk :=
      match prev with
      | none => true
      | some pc => ¬ isWordChar pc
    let tryHere : Option String :=
      if boundaryOk then
        match dropPfx key (c :: rest) with
        | some after =>
          match after.dropWhile isSpace with
          | '(' :: inner =>
            match captureArgs inner with
            | some g => some ⟨g⟩
            | none => none
          | _ => none
        | none => none
      else none
    match tryHere with
    | some g => some g
    | none => searchCallArgs key (some c) rest

/-- Arity inference of the hinted Predicate/Function branch of
`register_symbol` (lines 116-123): one argument by default, the comma count
plus one at the first `key(args)` match, and zero when the matched
parentheses hold only whitespace. -/
def arityHinted (key all_text : String) : Nat :=
  match searchCallArgs key.toList none all_text.toList with
  | some args => if hasNonSpace args then countCommas args + 1 else 0
  | none => 1

/-- Arity inference of the hintless fallback branch of `register_symbol`
(lines 141-147): identical to the hinted branch except that the
empty-parentheses case leaves the default arity 1 in place, because that
branch has no `else` resetting the arity to zero. -/
def arityInferred (key all_text : String) : Nat :=
  match searchCallArgs key.toList none all_text.toList with
  | some args => if hasNonSpace args then countCommas args + 1 else 1
  | none => 1

/-! Ground terms of the evaluated fragment are declared constants, carried
by name; a formula is a predicate atom applied to constants or a connective
application, with the variadic connectives carrying a formula list. -/

mutual
inductive Formula where
  | atom (rel : String) (args : List String)
  | impliesF (a b : Formula)
  | andF (args : FormulaList)
  | orF (args : FormulaList)
  | notF (a : Formula)
deriving DecidableEq
inductive FormulaList where
  | nil
  | cons (f : Formula) (rest : FormulaList)
deriving DecidableEq
end

/-- Values the evaluator can meet: the entries of `locals_dict` (the solver
bound to `s`, the `Object` sort, declared constants and functions), built
Boolean expressions, and the Z3 connective callables found in the module
globals. -/
inductive Z3Obj where
  | solverObj
  | sortObj
  | constObj (name : String)
  | funcObj (name : String) (arity : Nat)
  | boolObj (f : Formula)
  | impliesFn
  | andFn
  | orFn
  | notFn
deriving DecidableEq

/-- The local dictionary `locals_dict`, in insertion order. -/
abbrev Env := List (String × Z3Obj)

/-- Dictionary lookup. -/
def envGet (env : Env) (k : String) : Option Z3Obj := List.lookup k env

/-- Names bound at module level that are relevant to the fragment evaluated
here: the module imports and definitions plus the commonly used names the
star import of z3 brings in. The real global namespace is larger, but every
token appearing in the statements considered below is classified exactly as
the source classifies it. -/
def moduleGlobals : List String :=
  ["mcp", "FastMCP", "traceback", "List", "uvicorn", "prove_logic", "check_satisfiability",
   "Solver", "Function", "Const", "DeclareSort", "BoolSort", "IntSort", "RealSort",
   "Implies", "And", "Or", "Not", "ForAll", "Exists", "Int", "Real", "Bool",
   "sat", "unsat", "unknown", "simplify", "solve", "prove", "sys", "io", "math"]

/-- The blocklist of the discovery step: the module globals joined with the
explicit reserved set (line 168); the `hasattr(sys.modules[__name__], token)`
test checks the same module namespace again. -/
def reservedNames : List String :=
  moduleGlobals ++
    ["True", "False", "None", "And", "Or", "Not", "Implies", "ForAll", "Exists",
     "Object", "BoolSort"]

/-- Embedding of the `register_symbol` closure of `prove_logic`: a name
already present in `locals_dict` is silently left untouched; otherwise the
declared object is decided by the explicit type hint when it is one of the
four recognized strings, and by the case of the first character otherwise,
with the regex arity scan for function symbols. Indexing the first character
of an empty name raises, which the surrounding handler turns into a failed
query. -/
def register_symbol (premises : List String) (conclusion : String) (env : Env)
    (symbol_key : String) (z3_name : Option String) (type_hint : Option String) :
    Except String Env :=
  if (envGet env symbol_key).isSome then .ok env
  else
    let real_name := z3_name.getD symbol_key
    if type_hint = some "Predicate" ∨ type_hint = some "Function" then
      let all_text := String.intercalate " " premises ++ " " ++ conclusion
      .ok (env ++ [(symbol_key, .funcObj real_name (arityHinted symbol_key all_text))])
    else if type_hint = some "Const" ∨ type_hint = some "Object" then
      .ok (env ++ [(symbol_key, .constObj real_name)])
    else
      match symbol_key.toList with
      | [] => .error "IndexError: string index out of range"
      | c :: _ =>
        if c.isLower then
          .ok (env ++ [(symbol_key, .constObj real_name)])
        else
          let all_text := String.intercalate " " premises ++ " " ++ conclusion
          .ok (env ++ [(symbol_key, .funcObj real_name (arityInferred symbol_key all_text))])

/-- The environment `prove_logic` builds before registration: the `Object`
sort and the solver, the latter bound to the name `s`. -/
def initialEnv : Env := [("Object", .sortObj), ("s", .solverObj)]

/-- Registration of the alias entries, each with the type hint its key has
in the declarations dictionary, in dictionary (insertion) order. -/
def registerAliases (premises : List String) (conclusion : String)
    (declarations aliases : List (String × String)) (env : Env) : Except String Env :=
  aliases.foldlM
    (fun env kv =>
      register_symbol premises conclusion env kv.1 (some kv.2)
        (List.lookup kv.1 declarations))
    env

/-- Registration of the explicit declarations that are not alias keys. -/
def registerDeclarations (premises : List String) (conclusion : String)
    (declarations aliases : List (String × String)) (env : Env) : Except String Env :=
  declarations.foldlM
    (fun env kv =>
      if (List.lookup kv.1 aliases).isSome then .ok env
      else register_symbol premises conclusion env kv.1 (some kv.1) (some kv.2))
    env

/-- Discovery of the remaining symbols: every identifier token of the joined
premises and conclusion text that is neither already registered nor reserved
is registered with no hint. Python iterates the token set in an unspecified
order; first-occurrence order is used here, and no registration outcome
depends on the order. -/
def discoverSymbols (premises : List String) (conclusion : String) (env : Env) :
    Except String Env :=
  let all_text := String.intercalate " " premises ++ " " ++ conclusion
  (scanTokens all_text.toList).eraseDups.foldlM
    (fun env token =>
      if (envGet env token).isSome ∨ token ∈ reservedNames then .ok env
      else register_symbol premises conclusion env token none none)
    env

/-! Abstract syntax of the evaluated statement strings: identifiers and call
expressions. -/

mutual
inductive PyExpr where
  | ident (name : String)
  | call (f : PyExpr) (args : PyArgs)
deriving DecidableEq
inductive PyArgs where
  | nil
  | cons (e : PyExpr) (rest : PyArgs)
deriving DecidableEq
end

/-! Recursive-descent parsing of the fragment, with explicit fuel: an
expression is an identifier followed by any number of argument lists. -/

mutual
def parseExprF : Nat → List Char → Option (PyExpr × List Char)
  | 0, _ => none
  | fuel + 1, s =>
    match s.dropWhile isSpace with
    | [] => none
    | c :: rest =>
      if isWordStart c then
        parseSuffixF fuel (PyExpr.ident ⟨c :: rest.takeWhile isWordChar⟩)
          (rest.dropWhile isWordChar)
      else none
def parseSuffixF : Nat → PyExpr → List Char → Option (PyExpr × List Char)
  | 0, _, _ => none
  | fuel + 1, e, s =>
    match s.dropWhile isSpace with
    | '(' :: rest =>
      match rest.dropWhile isSpace with
      | ')' :: after => parseSuffixF fuel (PyExpr.call e .nil) after
      | _ =>
        match parseArgsF fuel rest with
        | some (args, after) =>
          match after.dropWhile isSpace with
          | ')' :: after2 => parseSuffixF fuel (PyExpr.call e args) after2
          | _ => none
        | none => none
    | _ => some (e, s)
def parseArgsF : Nat → List Char → Option (PyArgs × List Char)
  | 0, _ => none
  | fuel + 1, s =>
    match parseExprF fuel s with
    | some (e, rest) =>
      match rest.dropWhile isSpace with
      | ',' :: rest2 =>
        match parseArgsF fuel rest2 with
        | some (args, rest3) => some (.cons e args, rest3)
        | none => none
      | _ => some (.cons e .nil, rest)
    | none => none
end

/-- Parse a whole statement string; trailing input other than whitespace is
a syntax error. -/
def parseStatement (stmt : String) : Option PyExpr :=
  match parseExprF (3 * stmt.length + 9) stmt.toList with
  | some (e, rest) => if rest.dropWhile isSpace = [] then some e else none
  | none => none

/-- Name resolution of `eval(stmt, globals(), locals_dict)`: the local
dictionary first, then the module globals, where the connectives of the
fragment live; anything else raises a NameError. -/
def evalName (env : Env) (n : String) : Except String Z3Obj :=
  match envGet env n with
  | some v => .ok v
  | none =>
    if n = "Implies" then .ok .impliesFn
    else if n = "Not" then .ok .notFn
    else if n = "And" then .ok .andFn
    else if n = "Or" then .ok .orFn
    else .error ("NameError: name " ++ n ++ " is not defined")

/-- Views a value list as constant arguments of a predicate application;
anything else (the solver, a declaration, a Boolean expression) makes Z3
raise a sort error. -/
def asTermArgs : List Z3Obj → Option (List String)
  | [] => some []
  | .constObj n :: rest => (asTermArgs rest).map (n :: ·)
  | _ => none

/-- Views a value list as Boolean-expression arguments of a connective. -/
def asBoolArgs : List Z3Obj → Option FormulaList
  | [] => some .nil
  | .boolObj f :: rest => (asBoolArgs rest).map (.cons f ·)
  | _ => none

/-- Application, with the checks Z3 performs: a declared function wants
exactly its arity of object-sorted arguments, the connectives want Boolean
expressions, and nothing else is callable. -/
def applyObj (f : Z3Obj) (args : List Z3Obj) : Except String Z3Obj :=
  match f with
  | .funcObj n k =>
    if args.length = k then
      match asTermArgs args with
      | some ts => .ok (.boolObj (.atom n ts))
      | none => .error ("Z3Exception: sort mismatch applying " ++ n)
    else .error ("Z3Exception: wrong number of arguments applying " ++ n)
  | .impliesFn =>
    match args with
    | [.boolObj a, .boolObj b] => .ok (.boolObj (.impliesF a b))
    | _ => .error "Z3Exception: Implies expects two Boolean expressions"
  | .notFn =>
    match args with
    | [.boolObj a] => .ok (.boolObj (.notF a))
    | _ => .error "Z3Exception: Not expects one Boolean expression"
  | .andFn =>
    match asBoolArgs args with
    | some fs => .ok (.boolObj (.andF fs))
    | none => .error "Z3Exception: And expects Boolean expressions"
  | .orFn =>
    match asBoolArgs args with
    | some fs => .ok (.boolObj (.orF fs))
    | none => .error "Z3Exception: Or expects Boolean expressions"
  | _ => .error "TypeError: object is not callable"

/-! Evaluation of a parsed expression over the local dictionary. -/

mutual
def evalExpr (env : Env) : PyExpr → Except String Z3Obj
  | .ident n => evalName env n
  | .call f args => do
    let fv ← evalExpr env f
    let avs ← evalArgs env args
    applyObj fv avs
def evalArgs (env : Env) : PyArgs → Except String (List Z3Obj)
  | .nil => .ok []
  | .cons e rest => do
    let v ← evalExpr env e
    let vs ← evalArgs env rest
    .ok (v :: vs)
end

/-- Evaluation of one statement string: parse, then evaluate. -/
def evalStatement (env : Env) (stmt : String) : Except String Z3Obj :=
  match parseStatement stmt with
  | some e => evalExpr env e
  | none => .error ("SyntaxError: " ++ stmt)

/-- Evaluation of a premise as asserted by `solver.add`, which wants a
Boolean expression. -/
def evalBoolStatement (env : Env) (stmt : String) : Except String Formula :=
  match evalStatement env stmt with
  | .ok (.boolObj f) => .ok f
  | .ok _ => .error "Z3Exception: solver.add expects a Boolean expression"
  | .error e => .error e

/-- Evaluation and assertion of all premises, in order, stopping at the
first failure. -/
def evalPremises (env : Env) : List String → Except String (List Formula)
  | [] => .ok []
  | p :: rest => do
    let f ← evalBoolStatement env p
    let fs ← evalPremises env rest
    .ok (f :: fs)

/-- The simplified-mode setup of `prove_logic` (the try block of lines
70-184): alias registration, declaration registration, discovery, premise
evaluation. Any failure is caught there and turns the query into False. -/
def simplifiedSetup (premises : List String) (conclusion : String)
    (declarations aliases : List (String × String)) :
    Except String (Env × List Formula) := do
  let env ← registerAliases premises conclusion declarations aliases initialEnv
  let env ← registerDeclarations premises conclusion declarations aliases env
  let env ← discoverSymbols premises conclusion env
  let asserts ← evalPremises env premises
  .ok (env, asserts)

/-- Evaluation of the conclusion and its negation (lines 204-216): the
conclusion must evaluate to a Boolean expression for `Not` to accept it. -/
def evalConclusion (env : Env) (conclusion : String) : Except String Formula :=
  match evalStatement env conclusion with
  | .ok (.boolObj f) => .ok f
  | .ok _ => .error "Z3Exception: Not expects a Boolean expression"
  | .error e => .error e

/-- Outcome of one solver decision-procedure run. -/
inductive CheckResult where
  | sat
  | unsat
  | unknown
deriving DecidableEq

/-- Environment summary of a legacy-mode run, whose premises are raw Python
scripts passed to `exec`: either some premise raises, or execution finishes
having created a solver or not, with the negation statement possibly
raising, and a solver outcome. -/
inductive LegacyOutcome where
  | execError (idx : Nat) (msg : String)
  | finished (solverCreated : Bool) (negationRaises : Bool) (result : CheckResult)
deriving DecidableEq

/-- A solver that always answers the same; used to instantiate the `check`
parameter at concrete inputs. -/
def constCheck (r : CheckResult) : List Formula → CheckResult := fun _ => r

/-- Mode selection of `prove_logic` (lines 63-67): simplified when
declarations or aliases are passed, or when there is at least one premise
and no premise contains the substrings that mark a raw Z3 script. -/
def isSimplifiedMode (premises : List String)
    (declarations aliases : Option (List (String × String))) : Bool :=
  if declarations.isSome || aliases.isSome then true
  else if ¬ premises.isEmpty
      && premises.all (fun p => ¬ (containsSub p.toList "s.add".toList))
      && premises.all (fun p => ¬ (containsSub p.toList "Solver()".toList)) then true
  else false

/-- Embedding of the tool `prove_logic`. `check` is the external solver
run on the asserted premises and negated conclusion; every internal failure
is caught and returned as False; `unsat` is the only outcome reported as
True. -/
def prove_logic (premises : List String) (conclusion : String)
    (declarations aliases : Option (List (String × String)))
    (check : List Formula → CheckResult) (legacy : LegacyOutcome) : Bool :=
  if isSimplifiedMode premises declarations aliases then
    match simplifiedSetup premises conclusion (declarations.getD []) (aliases.getD []) with
    | .error _ => false
    | .ok (env, asserts) =>
      match evalConclusion env conclusion with
      | .error _ => false
      | .ok conc =>
        match check (asserts ++ [Formula.notF conc]) with
        | .unsat => true
        | .sat => false
        | .unknown => false
  else
    match legacy with
    | .execError _ _ => false
    | .finished false _ _ => false
    | .finished true true _ => false
    | .finished true false r =>
      match r with
      | .unsat => true
      | .sat => false
      | .unknown => false

/-- The tool as seen by a caller holding the persistent proof store of
`Z3Cache`: the body of `prove_logic` contains no reference to the cache (the
module does not even construct a `Z3Cache`), so the store passes through a
call unchanged and the solver is consulted on every run. -/
def prove_logic_with_store (db : Z3Cache.CacheDB) (premises : List String)
    (conclusion : String) (declarations aliases : Option (List (String × String)))
    (check : List Formula → CheckResult) (legacy : LegacyOutcome) :
    Bool × Z3Cache.CacheDB :=
  (prove_logic premises conclusion declarations aliases check legacy, db)

/-- Values of the result dictionary of `check_satisfiability`. -/
inductive PyVal where
  | pyBool (b : Bool)
  | pyStr (s : String)
  | pyModel (m : List (String × String))
  | pyNone
deriving DecidableEq

/-- The result dictionary, as a key-value list. -/
abbrev PyDict := List (String × PyVal)

/-- Environment summary of a `check_satisfiability` run: whether evaluating
the simplified-mode constraints raises (index and message of the first
failure), whether a legacy-mode `exec` raises, whether the legacy script
created a solver, and the solver outcome with its model. -/
structure SatEnvironment where
  simplifiedEvalError : Option (Nat × String)
  legacyExecError : Option (Nat × String)
  legacySolverCreated : Bool
  outcome : CheckResult
  model : List (String × String)

/-- The result dictionary built from the solver outcome (lines 368-390). -/
def satResult (envb : SatEnvironment) : PyDict :=
  match envb.outcome with
  | .sat => [("satisfiable", .pyBool true), ("model", .pyModel envb.model)]
  | .unsat => [("satisfiable", .pyBool false), ("model", .pyNone)]
  | .unknown =>
    [("satisfiable", .pyBool false), ("model", .pyNone),
     ("error", .pyStr "Unknown result from solver")]

/-- Embedding of the tool `check_satisfiability`: mode selection as in
`prove_logic` but keyed on `variables`, simplified-mode setup failure and
legacy-mode failures each returning an error dictionary, otherwise the
solver outcome dictionary. Every branch carries the key `satisfiable`. -/
def check_satisfiability (constraints : List String)
    (vars : Option (List (String × String))) (envb : SatEnvironment) : PyDict :=
  let is_simplified : Bool :=
    if vars.isSome then true
    else if ¬ constraints.isEmpty
        && constraints.all (fun c => ¬ (containsSub c.toList "s.add".toList))
        && constraints.all (fun c => ¬ (containsSub c.toList "Solver()".toList)) then true
    else false
  if is_simplified then
    match envb.simplifiedEvalError with
    | some (_, msg) =>
      [("satisfiable", .pyBool false),
       ("error", .pyStr ("Error in Simplified Mode setup: " ++ msg))]
    | none => satResult envb
  else
    match envb.legacyExecError with
    | some (i, msg) =>
      [("satisfiable", .pyBool false),
       ("error", .pyStr ("Error in constraint \x27" ++ (constraints.getD i "") ++ "\x27: " ++ msg))]
    | none =>
      if envb.legacySolverCreated then satResult envb
      else
        [("satisfiable", .pyBool false),
         ("error", .pyStr "No solver created. Include \x27s = Solver()\x27 in constraints.")]

end Backend

/-! ## Lemmas about the cache store -/

lemma filter_key_of_filter_not_key (rows : List Z3Cache.CacheRow) (h : String) :
    ((rows.filter fun r => ¬ (r.hash_key = h)).filter fun r => r.hash_key = h) = [] := by
  induction rows with
  | nil => rfl
  | cons a t ih =>
    by_cases ha : a.hash_key = h <;> simp [List.filter_cons, ha, ih]

lemma find?_key_of_filter_not_key (rows : List Z3Cache.CacheRow) (h : String) :
    ((rows.filter fun r => ¬ (r.hash_key = h)).find? fun r => decide (r.hash_key = h)) = none := by
  rw [List.find?_eq_none]
  intro x hx
  have := (List.mem_filter.mp hx).2
  simpa using this

lemma rowsFor_set_cache (db : Z3Cache.CacheDB) (p : List String) (c : String)
    (d a : Option Z3Cache.StrDict) (r : Bool) (t : Nat) :
    Z3Cache.rowsFor (Z3Cache.set_cache db none p c d a r t) (Z3Cache._compute_hash p c d a) =
      [⟨Z3Cache._compute_hash p c d a, if r then 1 else 0, t⟩] := by
  unfold Z3Cache.rowsFor Z3Cache.set_cache
  simp only [List.filter_append, filter_key_of_filter_not_key]
  simp [List.filter_cons]

lemma get_cache_set_cache (db : Z3Cache.CacheDB) (p : List String) (c : String)
    (d a d' a' : Option Z3Cache.StrDict) (r : Bool) (t : Nat) :
    Z3Cache.get_cache (Z3Cache.set_cache db none p c d a r t) none p c d' a' = some r := by
  have hh : Z3Cache._compute_hash p c d' a' = Z3Cache._compute_hash p c d a := rfl
  simp only [Z3Cache.get_cache, Z3Cache.set_cache, hh]
  rw [List.find?_append, find?_key_of_filter_not_key]
  cases r <;> simp [List.find?]

/-! ## Claims about the cache -/

/-- Claim C1: for every premises list and conclusion string, the canonical
identity computed by `Z3Cache._compute_hash` is the SHA-256 hex digest of
the deterministic JSON serialization (sorted keys) of the sorted premises
together with the conclusion; the `declarations` and `aliases` arguments
never influence the value, so a `get_cache` issued after a `set_cache` with
the same premises and conclusion but different aliases or declarations reads
the very entry that was stored. -/
theorem c1_identity_excludes_aliases_and_declarations :
    ∀ (p : List String) (c : String) (d a d' a' : Option Z3Cache.StrDict)
      (db : Z3Cache.CacheDB) (r : Bool) (t : Nat),
    Z3Cache._compute_hash p c d a =
        sha256Hex (utf8Str (cacheJson (if p.isEmpty then [] else p.insertionSort (· ≤ ·)) c))
    ∧ Z3Cache._compute_hash p c d a = Z3Cache._compute_hash p c d' a'
    ∧ Z3Cache.get_cache (Z3Cache.set_cache db none p c d a r t) none p c d' a' = some r := by
  intro p c d a d' a' db r t
  exact ⟨rfl, rfl, get_cache_set_cache db p c d a d' a' r t⟩

/-- Claim C7: permuting the premise list never changes the canonical
identity computed by `Z3Cache._compute_hash`, because the premises are
sorted before serialization and hashing. -/
theorem c7_identity_invariant_under_premise_permutation
    (p p' : List String) (c : String) (d a : Option Z3Cache.StrDict)
    (hperm : p.Perm p') :
    Z3Cache._compute_hash p c d a = Z3Cache._compute_hash p' c d a := by
  unfold Z3Cache._compute_hash
  rcases eq_or_ne p [] with hp | hp
  · subst hp
    have : p' = [] := hperm.symm.eq_nil
    subst this
    rfl
  · have hp' : p' ≠ [] := by
      intro h
      subst h
      exact hp hperm.eq_nil
    have h1 : p.isEmpty = false := by simpa [List.isEmpty_iff] using hp
    have h2 : p'.isEmpty = false := by simpa [List.isEmpty_iff] using hp'
    have hsort : p.insertionSort (· ≤ ·) = p'.insertionSort (· ≤ ·) :=
      List.eq_of_perm_of_sorted
        ((List.perm_insertionSort _ p).trans (hperm.trans (List.perm_insertionSort _ p').symm))
        (List.sorted_insertionSort _ p) (List.sorted_insertionSort _ p')
    simp only [h1, h2, Bool.false_eq_true, if_false, hsort]

/-- Witness for claim C7 at a concrete permutation. -/
theorem c7_witness :
    (["B", "A"] : List String).Perm ["A", "B"]
    ∧ Z3Cache._compute_hash ["B", "A"] "C" none none =
        Z3Cache._compute_hash ["A", "B"] "C" none none :=
  ⟨by decide,
   c7_identity_invariant_under_premise_permutation ["B", "A"] ["A", "B"] "C" none none (by decide)⟩

/-- Claim C8: `set_cache` is an idempotent last-write-wins INSERT-OR-REPLACE
on the `hash_key` primary key: however many times a premises/conclusion pair
is stored, the table holds exactly one row for that identity, carrying the
last-written result (and timestamp), and reading it back yields the last
result. -/
theorem c8_set_cache_idempotent_last_write_wins :
    ∀ (db : Z3Cache.CacheDB) (p : List String) (c : String)
      (d a d1 a1 : Option Z3Cache.StrDict) (r r1 : Bool) (t t1 : Nat),
    Z3Cache.rowsFor (Z3Cache.set_cache db none p c d a r t) (Z3Cache._compute_hash p c d a) =
        [⟨Z3Cache._compute_hash p c d a, if r then 1 else 0, t⟩]
    ∧ Z3Cache.rowsFor
        (Z3Cache.set_cache (Z3Cache.set_cache db none p c d a r t) none p c d1 a1 r1 t1)
        (Z3Cache._compute_hash p c d a) =
        [⟨Z3Cache._compute_hash p c d a, if r1 then 1 else 0, t1⟩]
    ∧ Z3Cache.get_cache
        (Z3Cache.set_cache (Z3Cache.set_cache db none p c d a r t) none p c d1 a1 r1 t1)
        none p c d a = some r1 := by
  intro db p c d a d1 a1 r r1 t t1
  have hh : Z3Cache._compute_hash p c d a = Z3Cache._compute_hash p c d1 a1 := rfl
  refine ⟨rowsFor_set_cache db p c d a r t, ?_, ?_⟩
  · rw [hh]; exact rowsFor_set_cache _ p c d1 a1 r1 t1
  · exact get_cache_set_cache _ p c d1 a1 d a r1 t1

/-- Claim C9: storage failures never propagate out of the cache: a failing
`get_cache` returns `none` (a cache miss) and a failing `set_cache` is
swallowed, leaving the store unchanged — in both cases no exception reaches
the caller, so a broken cache can cost time but can never alter a verdict
read from or written to it. -/
theorem c9_cache_errors_degrade_to_miss :
    ∀ (db : Z3Cache.CacheDB) (e : String) (p : List String) (c : String)
      (d a : Option Z3Cache.StrDict) (r : Bool) (t : Nat),
    Z3Cache.get_cache db (some e) p c d a = none
    ∧ Z3Cache.set_cache db (some e) p c d a r t = db := by
  intro db e p c d a r t
  exact ⟨rfl, rfl⟩

/-! ## Claims about the backend tools -/

/-- Claim C2 (code bug, documented by src/z3/repro_conflict.py): on the
Socrates example of the specification the tool answers False, not True:
`locals_dict` pre-binds the name `s` to the Solver object, so the alias
`s → socrates` and the discovery of `s` are silently skipped, evaluating
`H(s)` applies a predicate to the solver, and the raised exception is
swallowed into a False verdict — whatever the solver would have answered,
with or without the aliases. -/
theorem c2_socrates_example_not_proven :
    ∀ (check : List Backend.Formula → Backend.CheckResult) (legacy : Backend.LegacyOutcome),
    Backend.prove_logic ["Implies(H(s), M(s))", "H(s)"] "M(s)" none
        (some [("H", "Human"), ("M", "Mortal"), ("s", "socrates")]) check legacy = false
    ∧ Backend.prove_logic ["Implies(H(s), M(s))", "H(s)"] "M(s)" none none check legacy = false := by
  intro check legacy
  exact ⟨rfl, rfl⟩

/-- Claim C3 (counterexample): a satisfiable and an unknown solver outcome
produce the same caller-visible result, the bare boolean False — no reason
value and no counterexample assignment accompany it, so a caller cannot
distinguish a refutation from an undecided result. -/
theorem c3_counterexample_sat_unknown_indistinguishable :
    Backend.prove_logic ["P(a)"] "P(a)" none none (Backend.constCheck .sat)
        (Backend.LegacyOutcome.execError 0 "") =
      Backend.prove_logic ["P(a)"] "P(a)" none none (Backend.constCheck .unknown)
        (Backend.LegacyOutcome.execError 0 "")
    ∧ Backend.prove_logic ["P(a)"] "P(a)" none none (Backend.constCheck .sat)
        (Backend.LegacyOutcome.execError 0 "") = false :=
  ⟨rfl, rfl⟩

/-- Claim C3 (amended): for every simplified-mode query whose statements all
evaluate successfully, the verdict is True exactly when the solver answers
unsat on the premises plus negated conclusion; sat and unknown are both
reported as the plain boolean False, the distinction and any model being
printed to the log only. -/
theorem c3_amended_result_mapping :
    ∀ (premises : List String) (conclusion : String)
      (d a : Option (List (String × String)))
      (check : List Backend.Formula → Backend.CheckResult)
      (legacy : Backend.LegacyOutcome)
      (env : Backend.Env) (asserts : List Backend.Formula) (conc : Backend.Formula),
    Backend.isSimplifiedMode premises d a = true →
    Backend.simplifiedSetup premises conclusion (d.getD []) (a.getD []) = .ok (env, asserts) →
    Backend.evalConclusion env conclusion = .ok conc →
    Backend.prove_logic premises conclusion d a check legacy =
      decide (check (asserts ++ [Backend.Formula.notF conc]) = .unsat) := by
  intro premises conclusion d a check legacy env asserts conc h1 h2 h3
  simp only [Backend.prove_logic, h1, if_true, h2, h3]
  cases hc : check (asserts ++ [Backend.Formula.notF conc]) <;> simp [hc]

/-- Witness for the amended claim C3 at a concrete evaluable query. -/
theorem c3_amended_witness :
    Backend.isSimplifiedMode ["P(a)"] none none = true
    ∧ Backend.simplifiedSetup ["P(a)"] "P(a)" [] [] =
        .ok (Backend.initialEnv ++
              [("P", Backend.Z3Obj.funcObj "P" 1), ("a", Backend.Z3Obj.constObj "a")],
             [Backend.Formula.atom "P" ["a"]])
    ∧ Backend.evalConclusion
        (Backend.initialEnv ++
          [("P", Backend.Z3Obj.funcObj "P" 1), ("a", Backend.Z3Obj.constObj "a")]) "P(a)" =
        .ok (Backend.Formula.atom "P" ["a"])
    ∧ Backend.prove_logic ["P(a)"] "P(a)" none none (Backend.constCheck .unsat)
        (Backend.LegacyOutcome.execError 0 "") =
        decide (Backend.constCheck .unsat
          ([Backend.Formula.atom "P" ["a"]] ++
            [Backend.Formula.notF (Backend.Formula.atom "P" ["a"])]) = .unsat) :=
  ⟨rfl, rfl, rfl,
   c3_amended_result_mapping ["P(a)"] "P(a)" none none (Backend.constCheck .unsat)
     (Backend.LegacyOutcome.execError 0 "")
     (Backend.initialEnv ++
       [("P", Backend.Z3Obj.funcObj "P" 1), ("a", Backend.Z3Obj.constObj "a")])
     [Backend.Formula.atom "P" ["a"]] (Backend.Formula.atom "P" ["a"]) rfl rfl rfl⟩

/-- Claim C4 (code bug, contradicted by src/z3/test_cache_loose.py, which
even imports a `cache` object the module does not define): `prove_logic`
never consults or updates the proof store — a call leaves the store exactly
as it was, and after the two differently-aliased runs of the test scenario
the table still holds no row at all for the canonical identity, instead of
the one row and cache hit the claim requires. -/
theorem c4_prove_logic_never_touches_cache :
    ∀ (db : Z3Cache.CacheDB) (premises : List String) (conclusion : String)
      (d a : Option (List (String × String)))
      (check : List Backend.Formula → Backend.CheckResult) (legacy : Backend.LegacyOutcome),
    (Backend.prove_logic_with_store db premises conclusion d a check legacy).2 = db
    ∧ Z3Cache.rowsFor
        ((Backend.prove_logic_with_store
            ((Backend.prove_logic_with_store Z3Cache.emptyDB
                ["Implies(H(s), M(s))", "H(s)"] "M(s)" none
                (some [("H", "Human"), ("M", "Mortal"), ("s", "socrates")]) check legacy).2)
            ["Implies(H(s), M(s))", "H(s)"] "M(s)" none
            (some [("H", "Humanity"), ("M", "Mortality"), ("s", "socrates_guy")]) check legacy).2)
        (Z3Cache._compute_hash ["Implies(H(s), M(s))", "H(s)"] "M(s)" none none) = [] := by
  intro db premises conclusion d a check legacy
  exact ⟨rfl, rfl⟩

/-- Claim C5 (counterexample): requesting the name `s` as an Individual via
an alias while it is already bound (to the solver) raises nothing: the
registration returns the environment unchanged, silently keeping the first
binding — no DeclarationConflictError exists anywhere in the code. -/
theorem c5_counterexample_conflict_silently_ignored :
    Backend.register_symbol ["Implies(H(s), M(s))", "H(s)"] "M(s)" Backend.initialEnv
        "s" (some "socrates") none = .ok Backend.initialEnv
    ∧ Backend.envGet Backend.initialEnv "s" = some Backend.Z3Obj.solverObj :=
  ⟨rfl, rfl⟩

/-- Claim C5 (amended): a name already present in the evaluator environment
is always silently kept at its first registration — any later registration
of the same name, whatever kind it demands, returns the environment
unchanged and raises no error; a conflict can surface only later, as an
evaluation failure that makes the query return False. -/
theorem c5_amended_first_binding_kept (env : Backend.Env) (premises : List String)
    (conclusion : String) (key : String) (z3name hint : Option String)
    (h : (Backend.envGet env key).isSome = true) :
    Backend.register_symbol premises conclusion env key z3name hint = .ok env := by
  unfold Backend.register_symbol
  simp [h]

/-- Witness for the amended claim C5: re-registering `s`, bound to the
solver, as an explicit Object constant is silently ignored. -/
theorem c5_amended_witness :
    (Backend.envGet Backend.initialEnv "s").isSome = true
    ∧ Backend.register_symbol ["H(s)"] "H(s)" Backend.initialEnv "s" (some "socrates")
        (some "Object") = .ok Backend.initialEnv :=
  ⟨rfl, c5_amended_first_binding_kept Backend.initialEnv ["H(s)"] "H(s)" "s"
    (some "socrates") (some "Object") rfl⟩

/-- Claim C6 (counterexample): a discovered symbol used with empty
parentheses gets arity 1, not the arity 0 the claim predicts — the zero case
exists only in the explicitly hinted Predicate/Function branch, not in the
hintless discovery branch. -/
theorem c6_counterexample_empty_parens_arity_one :
    Backend.discoverSymbols ["Flag()"] "" Backend.initialEnv =
        .ok (Backend.initialEnv ++ [("Flag", Backend.Z3Obj.funcObj "Flag" 1)])
    ∧ Backend.Z3Obj.funcObj "Flag" 1 ≠ Backend.Z3Obj.funcObj "Flag" 0 :=
  ⟨rfl, by decide⟩

/-- Claim C6 (amended): during discovery every still-unregistered token
starting with a lowercase letter becomes a nullary Object constant, and
every other token becomes a Bool-valued function whose arity comes from the
first `name(args)` match in the joined premises-and-conclusion text: comma
count plus one for non-blank arguments — `Parent(a,b)` gives 2, `Tall(a)`
gives 1 — while both the no-match case and the empty-parentheses case leave
the default arity 1 (the arity-0 rule lives only in the hinted branch). -/
theorem c6_amended_discovery_classification :
    ∀ (env : Backend.Env) (premises : List String) (conclusion : String)
      (tok : String) (c : Char) (rest : List Char),
    Backend.envGet env tok = none →
    tok.toList = c :: rest →
    (Backend.register_symbol premises conclusion env tok none none =
      .ok (env ++ [(tok,
        if c.isLower then Backend.Z3Obj.constObj tok
        else Backend.Z3Obj.funcObj tok
          (Backend.arityInferred tok (String.intercalate " " premises ++ " " ++ conclusion)))]))
    ∧ Backend.arityInferred "Parent" "Parent(a,b)" = 2
    ∧ Backend.arityInferred "Tall" "Tall(a)" = 1
    ∧ Backend.arityInferred "Flag" "Flag()" = 1
    ∧ (∀ (key text : String),
        Backend.searchCallArgs key.toList none text.toList = none →
        Backend.arityInferred key text = 1) := by
  intro env premises conclusion tok c rest h1 h2
  refine ⟨?_, by decide, by decide, by decide, ?_⟩
  · have hs : (Backend.envGet env tok).isSome = false := by simp [h1]
    unfold Backend.register_symbol
    simp only [hs, Bool.false_eq_true, if_false, h2]
    by_cases hc : c.isLower <;> simp [hc]
  · intro key text hnone
    unfold Backend.arityInferred
    rw [hnone]

/-- Witness for the amended claim C6 at the specification's own example. -/
theorem c6_amended_witness :
    Backend.envGet Backend.initialEnv "Parent" = none
    ∧ "Parent".toList = 'P' :: ['a', 'r', 'e', 'n', 't']
    ∧ Backend.register_symbol ["Parent(a,b)"] "Tall(a)" Backend.initialEnv "Parent" none none =
        .ok (Backend.initialEnv ++ [("Parent",
          if ('P').isLower then Backend.Z3Obj.constObj "Parent"
          else Backend.Z3Obj.funcObj "Parent"
            (Backend.arityInferred "Parent"
              (String.intercalate " " ["Parent(a,b)"] ++ " " ++ "Tall(a)")))]) :=
  ⟨rfl, rfl,
   (c6_amended_discovery_classification Backend.initialEnv ["Parent(a,b)"] "Tall(a)"
     "Parent" 'P' ['a', 'r', 'e', 'n', 't'] rfl rfl).1⟩

/-- Claim C10: the public tools never propagate an exception: every result
dictionary of `check_satisfiability` carries the key `satisfiable` (with an
error message entry on failures), and `prove_logic` answers the plain
boolean False on every internal failure — simplified-mode setup errors,
conclusion evaluation errors, legacy premise execution errors, and a missing
solver. -/
theorem c10_tools_total_at_interface :
    ∀ (constraints : List String) (vars : Option (List (String × String)))
      (envb : Backend.SatEnvironment)
      (premises : List String) (conclusion : String)
      (d a : Option (List (String × String)))
      (check : List Backend.Formula → Backend.CheckResult)
      (legacy : Backend.LegacyOutcome)
      (err : String) (env : Backend.Env) (asserts : List Backend.Formula)
      (i : Nat) (msg : String) (neg : Bool) (r : Backend.CheckResult),
    "satisfiable" ∈ (Backend.check_satisfiability constraints vars envb).map Prod.fst
    ∧ (Backend.isSimplifiedMode premises d a = true →
        Backend.simplifiedSetup premises conclusion (d.getD []) (a.getD []) = .error err →
        Backend.prove_logic premises conclusion d a check legacy = false)
    ∧ (Backend.isSimplifiedMode premises d a = true →
        Backend.simplifiedSetup premises conclusion (d.getD []) (a.getD []) = .ok (env, asserts) →
        Backend.evalConclusion env conclusion = .error err →
        Backend.prove_logic premises conclusion d a check legacy = false)
    ∧ (Backend.isSimplifiedMode premises d a = false →
        Backend.prove_logic premises conclusion d a check
            (Backend.LegacyOutcome.execError i msg) = false
        ∧ Backend.prove_logic premises conclusion d a check
            (Backend.LegacyOutcome.finished false neg r) = false
        ∧ Backend.prove_logic premises conclusion d a check
            (Backend.LegacyOutcome.finished true true r) = false) := by
  intro constraints vars envb premises conclusion d a check legacy err env asserts i msg neg r
  refine ⟨?_, ?_, ?_, ?_⟩
  · rcases envb with ⟨se, le, sc, oc, mo⟩
    simp only [Backend.check_satisfiability, Backend.satResult]
    rcases se with _ | ⟨si, sm⟩ <;> rcases le with _ | ⟨li, lm⟩ <;>
      cases sc <;> cases oc <;>
      split <;> (try split) <;> simp
  · intro h1 h2
    simp only [Backend.prove_logic, h1, if_true, h2]
  · intro h1 h2 h3
    simp only [Backend.prove_logic, h1, if_true, h2, h3]
  · intro h1
    refine ⟨?_, ?_, ?_⟩ <;> simp [Backend.prove_logic, h1]

/-- Witness for claim C10 at concrete failing inputs of each kind. -/
theorem c10_witness :
    "satisfiable" ∈
      (Backend.check_satisfiability ["x > 1"] none ⟨none, none, true, .sat, []⟩).map Prod.fst
    ∧ Backend.isSimplifiedMode ["("] none (some []) = true
    ∧ Backend.prove_logic ["("] "x" none (some []) (Backend.constCheck .unsat)
        (Backend.LegacyOutcome.execError 0 "") = false
    ∧ Backend.prove_logic ["P(a)"] "(" none none (Backend.constCheck .unsat)
        (Backend.LegacyOutcome.execError 0 "") = false
    ∧ Backend.isSimplifiedMode ["s.add(x > 1)"] none none = false
    ∧ Backend.prove_logic ["s.add(x > 1)"] "x" none none (Backend.constCheck .unsat)
        (Backend.LegacyOutcome.execError 0 "boom") = false :=
  ⟨(c10_tools_total_at_interface ["x > 1"] none ⟨none, none, true, .sat, []⟩
      [] "" none none (Backend.constCheck .unsat) (Backend.LegacyOutcome.execError 0 "")
      "" [] [] 0 "" false .sat).1,
   rfl,
   (c10_tools_total_at_interface ["x > 1"] none ⟨none, none, true, .sat, []⟩
      ["("] "x" none (some []) (Backend.constCheck .unsat)
      (Backend.LegacyOutcome.execError 0 "") "SyntaxError: (" [] [] 0 "" false .sat).2.1
     rfl rfl,
   (c10_tools_total_at_interface ["x > 1"] none ⟨none, none, true, .sat, []⟩
      ["P(a)"] "(" none none (Backend.constCheck .unsat)
      (Backend.LegacyOutcome.execError 0 "") "SyntaxError: ("
      (Backend.initialEnv ++
        [("P", Backend.Z3Obj.funcObj "P" 1), ("a", Backend.Z3Obj.constObj "a")])
      [Backend.Formula.atom "P" ["a"]] 0 "" false .sat).2.2.1
     rfl rfl rfl,
   rfl,
   ((c10_tools_total_at_interface ["x > 1"] none ⟨none, none, true, .sat, []⟩
      ["s.add(x > 1)"] "x" none none (Backend.constCheck .unsat)
      (Backend.LegacyOutcome.execError 0 "") "" [] [] 0 "boom" false .sat).2.2.2
     rfl).1⟩

end Z3Visu
